import Mathlib

/-!
Verification of the SME block/bulk deal scanner
(`sme_block_bulk_telegram.py`) against its specification.

The script is sequential glue: fetch → parse → filter → format → notify.
All network I/O is modelled by explicit oracle inputs: every HTTP request
the script makes is represented by an `Except String _` value supplied by
a `World` record — `Except.error e` means the request (or the `json.loads`
call guarded by the same `try`) raised an exception whose `str()` is `e`,
and `Except.ok v` means it produced the decoded value `v`.  Pure Python
computations (dict lookup chains, string normalisation, list slicing,
formatting, ordering) are translated function by function.
-/

/-- A decoded JSON value, as produced by `json.loads`.  JSON objects are
modelled as association lists (the scripts never rely on duplicate keys),
and numbers as integers (no numeric payload field is ever used
arithmetically by the script). -/
inductive JVal where
  | null
  | bool (b : Bool)
  | num (n : Int)
  | str (s : String)
  | arr (xs : List JVal)
  | obj (fields : List (String × JVal))
deriving Repr

/-- Python truthiness (`bool(v)`) of a decoded JSON value: `None`, `False`,
`0`, `""`, `[]` and `{}` are falsy, everything else truthy. -/
def truthy : JVal → Bool
  | .null => false
  | .bool b => b
  | .num n => n != 0
  | .str s => s != ""
  | .arr xs => !xs.isEmpty
  | .obj fs => !fs.isEmpty

mutual

/-- Python `str()` rendering used by `repr` on container elements:
strings are quoted, `None`/`True`/`False` and numbers as in Python. -/
def pyRepr : JVal → String
  | .null => "None"
  | .bool true => "True"
  | .bool false => "False"
  | .num n => toString n
  | .str s => "'" ++ s ++ "'"
  | .arr xs => "[" ++ String.intercalate ", " (pyReprList xs) ++ "]"
  | .obj fs => "\x7b" ++ String.intercalate ", " (pyReprObj fs) ++ "\x7d"

/-- Renders the elements of a JSON array the way Python `repr` does. -/
def pyReprList : List JVal → List String
  | [] => []
  | x :: xs => pyRepr x :: pyReprList xs

/-- Renders the entries of a JSON object the way Python `repr` does. -/
def pyReprObj : List (String × JVal) → List String
  | [] => []
  | (k, v) :: fs => ("'" ++ k ++ "': " ++ pyRepr v) :: pyReprObj fs

end

/-- Python `str(v)`: a string renders as itself, any other value as its
`repr`-style rendering (which is what `str` produces for `None`, booleans,
numbers, lists and dicts). -/
def pyStr : JVal → String
  | .str s => s
  | v => pyRepr v

/-- Python `s.strip()`: removes leading and trailing whitespace.  Modelled
over the character list (Python strips the full Unicode whitespace class;
the feeds only ever carry ASCII whitespace). -/
def pyStrip (s : String) : String :=
  String.mk (((s.data.dropWhile Char.isWhitespace).reverse.dropWhile
    Char.isWhitespace).reverse)

/-- Python `s.upper()`: uppercases every character (ASCII case mapping;
ticker symbols and series codes are ASCII). -/
def pyUpper (s : String) : String :=
  String.mk (s.data.map Char.toUpper)

/-- The Python idiom `d.get(k1) or d.get(k2) or ... or default`: the first
present and truthy value wins; a missing key yields `None` (falsy), so the
chain falls through both missing and falsy values down to `default`. -/
def getOrD (item : List (String × JVal)) (keys : List String) (dflt : JVal) : JVal :=
  match keys with
  | [] => dflt
  | k :: ks =>
    match item.lookup k with
    | some v => if truthy v then v else getOrD item ks dflt
    | none => getOrD item ks dflt

/-- The common case `d.get(k1) or ... or ""` (default is the empty string). -/
def getOr (item : List (String × JVal)) (keys : List String) : JVal :=
  getOrD item keys (.str "")

/-- The `DealRow` dataclass: one normalised disclosed trade.  All fields are
strings, exactly as in the source. -/
structure DealRow where
  exchange : String
  deal_type : String
  symbol : String
  date : String
  quantity : String
  price : String
  buyer : String
  seller : String
deriving DecidableEq, Repr

/-- `parse_json_rows(payload, exchange, deal_type)`: `payload` is a decoded
JSON object (its field list is passed here); `payload.get("data")` must be
a list, otherwise no rows are produced; non-dict entries are skipped; each
field is extracted by a `get(...) or ... or ""` chain, converted with
`str`, and stripped. -/
def parse_json_rows (payload : List (String × JVal)) (exchange : String) (deal_type : String) :
    List DealRow :=
  match payload.lookup "data" with
  | some (JVal.arr items) =>
    items.foldl (fun rows item =>
      match item with
      | JVal.obj it =>
        rows ++ [{ exchange := exchange
                   deal_type := deal_type
                   symbol := pyStrip (pyStr (getOr it ["symbol", "scripName", "Security"]))
                   date := pyStrip (pyStr (getOr it ["date", "dt", "DealDate"]))
                   quantity := pyStrip (pyStr (getOr it ["quantityTraded", "qty", "Quantity"]))
                   price := pyStrip (pyStr (getOr it ["pricePerShare", "price", "Price"]))
                   buyer := pyStrip (pyStr (getOr it ["clientName", "buyerName", "Buyer"]))
                   seller := pyStrip (pyStr (getOr it ["sellerName", "Seller"])) }]
      | _ => rows) []
  | _ => []

/-- `filter_sme(rows, symbols)`: an empty universe disables filtering;
otherwise keep exactly the rows whose uppercased symbol is in the
universe.  The Python `set` of symbols is modelled as a list used only
through emptiness and membership. -/
def filter_sme (rows : List DealRow) (symbols : List String) : List DealRow :=
  if symbols.isEmpty then rows
  else rows.filter (fun r => symbols.contains (pyUpper r.symbol))

/-- The per-record line of `format_rows`:
`f"- {r.date} | {r.deal_type} | {r.symbol} | Qty: {r.quantity} | Px: {r.price}"`. -/
def dealLine (r : DealRow) : String :=
  "- " ++ r.date ++ " | " ++ r.deal_type ++ " | " ++ r.symbol ++
    " | Qty: " ++ r.quantity ++ " | Px: " ++ r.price

/-- Python list slicing `xs[:m]` for an `int` bound `m`: non-negative bounds
take a prefix, negative bounds drop `-m` elements from the end (clamped). -/
def pyTake (m : Int) (xs : List α) : List α :=
  if 0 ≤ m then xs.take m.toNat
  else xs.take ((xs.length : Int) + m).toNat

/-- `format_rows(title, rows, max_rows)`: a fixed "no deals" body for an
empty list; otherwise the title, one line per row of `rows[:max_rows]`,
and an overflow line when `len(rows) > max_rows`. -/
def format_rows (title : String) (rows : List DealRow) (max_rows : Int) : String :=
  if rows.isEmpty then title ++ "\n- No SME deals found"
  else
    let lines := title :: (pyTake max_rows rows).map dealLine
    let lines := if (rows.length : Int) > max_rows
      then lines ++ ["- ... and " ++ toString ((rows.length : Int) - max_rows) ++ " more"]
      else lines
    String.intercalate "\n" lines

/-- A `datetime.date` value (proleptic Gregorian calendar). -/
structure PyDate where
  year : Int
  month : Nat
  day : Nat
deriving DecidableEq, Repr

/-- Gregorian leap-year test, as in `calendar.isleap`. -/
def isLeap (y : Int) : Bool :=
  y % 4 == 0 && (y % 100 != 0 || y % 400 == 0)

/-- Number of days in a month of a given year (months are 1..12). -/
def daysInMonth (y : Int) (m : Nat) : Nat :=
  if m == 2 then (if isLeap y then 29 else 28)
  else if m == 4 || m == 6 || m == 9 || m == 11 then 30
  else 31

/-- The calendar successor of a date (`d + timedelta(days=1)`). -/
def nextDay (d : PyDate) : PyDate :=
  if d.day < daysInMonth d.year d.month then { d with day := d.day + 1 }
  else if d.month < 12 then { year := d.year, month := d.month + 1, day := 1 }
  else { year := d.year + 1, month := 1, day := 1 }

/-- The calendar predecessor of a date (`d - timedelta(days=1)`). -/
def prevDay (d : PyDate) : PyDate :=
  if 1 < d.day then { d with day := d.day - 1 }
  else if 1 < d.month then { year := d.year, month := d.month - 1,
                             day := daysInMonth d.year (d.month - 1) }
  else { year := d.year - 1, month := 12, day := 31 }

/-- `d + timedelta(days=n)` for a non-negative day count. -/
def addDays (n : Nat) (d : PyDate) : PyDate :=
  Nat.repeat nextDay n d

/-- `d - timedelta(days=n)` for a non-negative day count. -/
def subDays (n : Nat) (d : PyDate) : PyDate :=
  Nat.repeat prevDay n d

/-- Zero-pads a number to two digits, as the `%02d`-style field of
`date.isoformat`. -/
def pad2 (n : Nat) : String :=
  if n < 10 then "0" ++ toString n else toString n

/-- Zero-pads a year to four digits, as the year field of `date.isoformat`. -/
def pad4 (y : Int) : String :=
  let n := y.toNat
  (if n < 10 then "000" else if n < 100 then "00" else if n < 1000 then "0" else "")
    ++ toString n

/-- `date.isoformat()`: the `YYYY-MM-DD` rendering of a date. -/
def isoformat (d : PyDate) : String :=
  pad4 d.year ++ "-" ++ pad2 d.month ++ "-" ++ pad2 d.day

/-- Python `int(s)` on a string: optional surrounding whitespace, optional
sign, then decimal digits; anything else raises `ValueError`. -/
def pyInt (s : String) : Except String Int :=
  let t := (pyStrip s).data
  let fail : Except String Int :=
    Except.error ("invalid literal for int() with base 10: '" ++ s ++ "'")
  let signAndDigits : Bool × List Char :=
    match t with
    | '-' :: rest => (true, rest)
    | '+' :: rest => (false, rest)
    | _ => (false, t)
  let digits := signAndDigits.2
  if digits.isEmpty || !(digits.all Char.isDigit) then fail
  else
    let n : Nat := digits.foldl (fun acc c => 10 * acc + (c.toNat - 48)) 0
    Except.ok (if signAndDigits.1 then -(n : Int) else (n : Int))

/-- `set.add` on the insertion-ordered list model of a Python `set` of
strings: adding an element already present is a no-op. -/
def setAdd (s : List String) (x : String) : List String :=
  if x ∈ s then s else s ++ [x]

/-- The `d.get(k1) or d.get(k2) or ""` idiom on a CSV row whose values are
strings (`csv.DictReader` rows): first present, non-empty value wins. -/
def strOr (row : List (String × String)) : List String → String
  | [] => ""
  | k :: ks =>
    match row.lookup k with
    | some v => if v != "" then v else strOr row ks
    | none => strOr row ks

/-- `fetch_nse_sme_symbols(opener)`.  The oracle input is the result of the
`EQUITY_L.csv` download, already tokenised into `csv.DictReader` rows
(tokenisation of arbitrary text never raises, so only the HTTP request can
fail).  The function body has no exception handler: a failed download
propagates to the caller.  Rows whose `SERIES` column (the header carries
a leading space in the real file, hence the two candidate keys) is `SM` or
`ST` contribute their uppercased `SYMBOL` to the universe. -/
def fetch_nse_sme_symbols (master : Except String (List (List (String × String)))) :
    Except String (List String) :=
  match master with
  | .error e => .error e
  | .ok rows =>
    .ok (rows.foldl (fun out row =>
      let series := pyUpper (pyStrip (strOr row [" SERIES", "SERIES"]))
      if series = "SM" ∨ series = "ST" then
        let sym := pyUpper (pyStrip (strOr row ["SYMBOL"]))
        if sym != "" then setAdd out sym else out
      else out) [])

/-- The deal-category labels of the four NSE candidate endpoints, in the
order the source lists them. -/
def nseCandidateTypes : List String := ["bulk", "block", "bulk", "block"]

/-- The per-candidate loop of `fetch_nse_deals`, before deduplication: each
candidate's `try` covers the HTTP request and `json.loads`, and a failure
there is `continue`; `parse_json_rows` is outside the `try`, and since it
calls `payload.get`, a successfully decoded payload that is not a JSON
object raises `AttributeError`, which propagates. -/
def nseParsedRows (responses : List (Except String JVal)) :
    Except String (List DealRow) :=
  (List.zip nseCandidateTypes responses).foldlM (fun acc pr =>
    match pr.2 with
    | .error _ => Except.ok acc
    | .ok (JVal.obj fields) =>
      Except.ok (acc ++ parse_json_rows fields "NSE" (pyUpper pr.1))
    | .ok _ => Except.error "'list' object has no attribute 'get'") []

/-- The trailing dict comprehension of `fetch_nse_deals`:
`{(r.exchange, ..., r.seller): r for r in rows}` keyed by the full field
tuple, then `list(uniq.values())`.  Since the key determines the whole
record, overwriting a present key's value is a no-op, and the dict's
insertion order makes the result keep the first occurrence of each
distinct record. -/
def dedupFullTuple : List DealRow → List DealRow
  | [] => []
  | r :: rs => r :: dedupFullTuple (rs.filter (fun x => x != r))
termination_by l => l.length
decreasing_by
  simp only [List.length_cons]
  exact Nat.lt_succ_of_le (List.length_filter_le _ _)

/-- `fetch_nse_deals(opener, from_date, to_date)`: the four candidate
queries (soft-failing individually) followed by full-tuple
deduplication. -/
def fetch_nse_deals (responses : List (Except String JVal)) :
    Except String (List DealRow) :=
  match nseParsedRows responses with
  | .error e => .error e
  | .ok rows => .ok (dedupFullTuple rows)

/-- The per-URL body of `fetch_bse_sme_symbols`: a failed download or
decode is `continue` (the accumulated set is returned unchanged), while a
decoded non-object payload raises at `payload.get` (outside the `try`).
For an object payload, each of the keys `Table`, `Data`, `table` that maps
to a list contributes the uppercased `SecurityId`/`scrip_cd`/`symbol` of
its dict entries. -/
def bseSymbolStep (out : List String) (resp : Except String JVal) :
    Except String (List String) :=
  match resp with
  | .error _ => .ok out
  | .ok (JVal.obj fields) =>
    .ok ((["Table", "Data", "table"]).foldl (fun out key =>
      match fields.lookup key with
      | some (JVal.arr vals) =>
        vals.foldl (fun out v =>
          match v with
          | JVal.obj row =>
            let sym := pyUpper (pyStrip (pyStr (getOr row ["SecurityId", "scrip_cd", "symbol"])))
            if sym != "" then setAdd out sym else out
          | _ => out) out
      | _ => out) out)
  | .ok _ => .error "'list' object has no attribute 'get'"

/-- `fetch_bse_sme_symbols()`: tries the two listing endpoints in order and
returns as soon as the accumulated set is non-empty; per-URL failures are
swallowed, so with both endpoints down the result is the empty set. -/
def fetch_bse_sme_symbols (r1 r2 : Except String JVal) :
    Except String (List String) :=
  match bseSymbolStep [] r1 with
  | .error e => .error e
  | .ok out =>
    if out ≠ [] then .ok out
    else bseSymbolStep out r2

/-- `fetch_bse_deals(as_on)`: one bulk and one block query for the given
day.  Each query's `try` covers the request and `json.loads` (failure is
`continue`); `payload.get` on a decoded non-object raises.  The
`Table`/`Data` value must be a list (otherwise `continue`), its non-dict
entries are skipped, and each dict entry is normalised; the `date` field
falls back to `as_on.isoformat()` instead of the empty string. -/
def fetch_bse_deals (as_on : PyDate) (bulkResp blockResp : Except String JVal) :
    Except String (List DealRow) :=
  ([("bulk", bulkResp), ("block", blockResp)]).foldlM (fun acc pr =>
    match pr.2 with
    | .error _ => Except.ok acc
    | .ok (JVal.obj fields) =>
      match getOrD fields ["Table", "Data"] (JVal.arr []) with
      | JVal.arr table =>
        Except.ok (table.foldl (fun acc item =>
          match item with
          | JVal.obj it =>
            acc ++ [{ exchange := "BSE"
                      deal_type := pyUpper pr.1
                      symbol := pyStrip (pyStr (getOr it ["Security", "scripname", "ScripName"]))
                      date := pyStrip (pyStr (getOrD it ["Date", "DealDate"]
                                (JVal.str (isoformat as_on))))
                      quantity := pyStrip (pyStr (getOr it ["Qty", "Quantity"]))
                      price := pyStrip (pyStr (getOr it ["Price", "DealPrice"]))
                      buyer := pyStrip (pyStr (getOr it ["BuyerName", "ClientName"]))
                      seller := pyStrip (pyStr (getOr it ["SellerName"])) }]
          | _ => acc) acc)
      | _ => Except.ok acc
    | .ok _ => Except.error "'list' object has no attribute 'get'") []

/-- `send_telegram_message(token, chat_id, text)`.  The oracle input is the
result of the HTTP POST together with `json.loads` of its body; the
function has no handler, so any failure there propagates.  A decoded
non-object raises at `payload.get("ok")`; an object whose `ok` entry is
missing or falsy raises `RuntimeError(f"Telegram API error: \x7bpayload\x7d")`;
a truthy `ok` returns normally. -/
def send_telegram_message (token chat_id text : String)
    (response : Except String JVal) : Except String Unit :=
  match response with
  | .error e => .error e
  | .ok payload =>
    match payload with
    | JVal.obj fields =>
      if truthy ((fields.lookup "ok").getD JVal.null) then .ok ()
      else .error ("Telegram API error: " ++ pyStr payload)
    | _ => .error "'list' object has no attribute 'get'"

/-- The process environment read by `main` via `os.getenv`. -/
structure Env where
  telegram_bot_token : Option String
  telegram_chat_id : Option String
  lookback_days : Option String
  max_rows_per_section : Option String

/-- The external world of one run: today's date and the outcome of every
HTTP interaction the script can attempt, positionally keyed the way the
script issues them.  BSE deal responses are keyed by the day offset from
`from_date` (one bulk/block pair per day). -/
structure World where
  today : PyDate
  nse_warmup : Except String Unit
  nse_master : Except String (List (List (String × String)))
  nse_deal_responses : List (Except String JVal)
  bse_sym1 : Except String JVal
  bse_sym2 : Except String JVal
  bse_deal_responses : Nat → Except String JVal × Except String JVal
  telegram_response : Except String JVal

/-- The body of the NSE `try` block in `main`: warm-up (inside
`build_nse_opener`), universe download, deal fetch, then filtering; the
first exception anywhere in it escapes to the handler. -/
def nseTry (w : World) : Except String (List DealRow) :=
  match w.nse_warmup with
  | .error e => .error e
  | .ok _ =>
    match fetch_nse_sme_symbols w.nse_master with
    | .error e => .error e
    | .ok sme =>
      match fetch_nse_deals w.nse_deal_responses with
      | .error e => .error e
      | .ok deals => .ok (filter_sme deals sme)

/-- The NSE `try`/`except` of `main`: a caught exception leaves the row
list empty and appends one warning note. -/
def nseBlock (w : World) : List DealRow × List String :=
  match nseTry w with
  | .ok rows => (rows, [])
  | .error e => ([], ["NSE fetch warning: " ++ e])

/-- The day-wise BSE loop of `main` (`while cursor <= to_date`), which runs
once per calendar day of the closed interval; day `n` queries
`from_date + n` and appends its rows after those of earlier days.  The
first escaping exception aborts the remaining days. -/
def bseDays (w : World) (from_date : PyDate) : Nat → Except String (List DealRow)
  | 0 => .ok []
  | n + 1 =>
    match bseDays w from_date n with
    | .error e => .error e
    | .ok acc =>
      match fetch_bse_deals (addDays n from_date)
          (w.bse_deal_responses n).1 (w.bse_deal_responses n).2 with
      | .error e => .error e
      | .ok rows => .ok (acc ++ rows)

/-- The body of the BSE `try` block in `main`: universe resolution, the
day-wise deal loop, then filtering. -/
def bseTry (w : World) (from_date : PyDate) (days : Nat) : Except String (List DealRow) :=
  match fetch_bse_sme_symbols w.bse_sym1 w.bse_sym2 with
  | .error e => .error e
  | .ok sme =>
    match bseDays w from_date days with
    | .error e => .error e
    | .ok allRows => .ok (filter_sme allRows sme)

/-- The BSE `try`/`except` of `main`. -/
def bseBlock (w : World) (from_date : PyDate) (days : Nat) : List DealRow × List String :=
  match bseTry w from_date days with
  | .ok rows => (rows, [])
  | .error e => ([], ["BSE fetch warning: " ++ e])

/-- Message composition in `main`: header, blank line, NSE section, blank
line, BSE section, and — only when some exchange block failed — a blank
line, a `Warnings:` heading and one bulleted line per note. -/
def buildMessage (w : World) (from_date to_date : PyDate) (days : Nat)
    (max_rows : Int) : String :=
  let nse := nseBlock w
  let bse := bseBlock w from_date days
  let notes := nse.2 ++ bse.2
  let header := "SME block/bulk scan (" ++ isoformat from_date ++ " to "
    ++ isoformat to_date ++ ")"
  let parts := [header, "", format_rows "NSE" nse.1 max_rows, "",
    format_rows "BSE" bse.1 max_rows]
  let parts := if notes.isEmpty then parts
    else parts ++ ["", "Warnings:"] ++ notes.map (fun n => "- " ++ n)
  String.intercalate "\n" parts

/-- `main()`.  `Except.ok n` is a normal return with exit code `n`
(`raise SystemExit(main())` turns it into the process exit code);
`Except.error e` is an uncaught exception, i.e. abnormal termination.
Both credentials are stripped before the presence check; a missing or
blank one returns 2 before any network interaction.  The two optional
numeric settings are parsed with `int()` outside any handler.  The date
interval covers `max(lookback_days, 1)` calendar days ending today.  The
only statement after the exchange blocks that can raise is the Telegram
send. -/
def Script.main (env : Env) (w : World) : Except String Int :=
  let token := pyStrip (env.telegram_bot_token.getD "")
  let chat_id := pyStrip (env.telegram_chat_id.getD "")
  if token = "" ∨ chat_id = "" then Except.ok 2
  else
    match pyInt (env.lookback_days.getD "1") with
    | .error e => .error e
    | .ok lookback_days =>
      match pyInt (env.max_rows_per_section.getD "20") with
      | .error e => .error e
      | .ok max_rows =>
        let to_date := w.today
        let days := (max lookback_days 1).toNat
        let from_date := subDays (days - 1) to_date
        let message := buildMessage w from_date to_date days max_rows
        match send_telegram_message token chat_id message w.telegram_response with
        | .error e => .error e
        | .ok _ => Except.ok 0

/-! ## Sample data shared by the concrete witnesses -/

/-- A bulk deal whose symbol arrives lowercase, as in the end-to-end
scenario of the specification. -/
def rowAbc : DealRow :=
  { exchange := "NSE", deal_type := "BULK", symbol := "abc",
    date := "01-01-2024", quantity := "500", price := "10",
    buyer := "B", seller := "S" }

/-- A deal outside the sample universe. -/
def rowXyz : DealRow :=
  { exchange := "NSE", deal_type := "BULK", symbol := "XYZ",
    date := "01-01-2024", quantity := "100", price := "9",
    buyer := "B", seller := "S" }

/-! ## C1: behaviour of the universe filter -/

/-- C1: for every record list and symbol universe, `filter_sme` with an
empty universe is the identity, and with a non-empty universe returns
exactly the records whose uppercased symbol is in the universe, in their
original order (the output is the membership-filtered list, hence a
sublist of the input). -/
theorem filter_sme_correct (rows : List DealRow) (symbols : List String) :
    (symbols = [] → filter_sme rows symbols = rows)
    ∧ (symbols ≠ [] →
        filter_sme rows symbols = rows.filter (fun r => symbols.contains (pyUpper r.symbol))
        ∧ (∀ r, r ∈ filter_sme rows symbols ↔ r ∈ rows ∧ pyUpper r.symbol ∈ symbols)
        ∧ (filter_sme rows symbols).Sublist rows) := by
  constructor
  · intro h
    simp [filter_sme, h]
  · intro h
    have hne : symbols.isEmpty = false := by
      cases symbols with
      | nil => exact absurd rfl h
      | cons a l => rfl
    refine ⟨by simp [filter_sme, hne], ?_, ?_⟩
    · intro r
      simp [filter_sme, hne, List.mem_filter, List.elem_iff]
    · simp only [filter_sme, hne, Bool.false_eq_true, if_false]
      exact List.filter_sublist rows

/-- Witness for C1: with universe `\x7b"ABC"\x7d` the lowercase-symbol
record is kept (case-insensitively) and the out-of-universe record is
dropped. -/
theorem filter_sme_correct_witness :
    filter_sme [rowAbc, rowXyz] ["ABC"] = [rowAbc] := by
  have h := ((filter_sme_correct [rowAbc, rowXyz] ["ABC"]).2 (by decide)).1
  rw [h]
  decide

/-! ## C7: behaviour of the report formatter -/

/-- C7: for every title, record list and maximum row count, formatting an
empty list yields exactly the "no deals found" line under the title;
formatting a non-empty list yields one line per record up to the maximum,
each rendered by `dealLine` (date, category, symbol, quantity, price in
that order); and when the list is longer than the maximum the output ends
with an overflow line stating `total - max`. -/
theorem format_rows_correct (t : String) (rows : List DealRow) (m : Nat) :
    (format_rows t [] (m : Int) = t ++ "\n- No SME deals found")
    ∧ (rows ≠ [] → rows.length ≤ m →
        format_rows t rows (m : Int) = String.intercalate "\n" (t :: rows.map dealLine))
    ∧ (rows ≠ [] → m < rows.length →
        format_rows t rows (m : Int) = String.intercalate "\n"
          ((t :: (rows.take m).map dealLine)
            ++ ["- ... and " ++ toString ((rows.length : Int) - (m : Int)) ++ " more"])) := by
  refine ⟨by simp [format_rows], ?_, ?_⟩
  · intro hne hlen
    have hempty : rows.isEmpty = false := by
      cases rows with
      | nil => exact absurd rfl hne
      | cons a l => rfl
    have htake : pyTake (m : Int) rows = rows := by
      simp [pyTake, List.take_of_length_le hlen]
    have hover : ¬ ((rows.length : Int) > (m : Int)) := by
      exact_mod_cast Nat.not_lt.mpr hlen
    simp [format_rows, hempty, htake, hover]
  · intro hne hlen
    have hempty : rows.isEmpty = false := by
      cases rows with
      | nil => exact absurd rfl hne
      | cons a l => rfl
    have htake : pyTake (m : Int) rows = rows.take m := by
      simp [pyTake]
    have hover : (rows.length : Int) > (m : Int) := by exact_mod_cast hlen
    simp [format_rows, hempty, htake, hover]

/-- Witness for C7: two records with maximum 1 produce the title, one
record line and the overflow line reporting one more record. -/
theorem format_rows_correct_witness :
    format_rows "NSE" [rowAbc, rowXyz] (1 : Int) = String.intercalate "\n"
      (("NSE" :: ([rowAbc, rowXyz].take 1).map dealLine)
        ++ ["- ... and " ++ toString (([rowAbc, rowXyz].length : Int) - ((1 : Nat) : Int)) ++ " more"]) := by
  exact (format_rows_correct "NSE" [rowAbc, rowXyz] 1).2.2 (by decide) (by decide)

/-! ## Exit-code behaviour of `main` (C8, C10) -/

/-- Shared helper: when either credential strips to the empty string,
`main` returns 2 and its result does not depend on the world at all
(so no network interaction can have taken place). -/
theorem main_blank_config (env : Env) (w w' : World)
    (h : pyStrip (env.telegram_bot_token.getD "") = ""
      ∨ pyStrip (env.telegram_chat_id.getD "") = "") :
    Script.main env w = Except.ok 2 ∧ Script.main env w = Script.main env w' := by
  constructor
  · simp [Script.main, h]
  · simp [Script.main, h]

/-- Shared helper: a Telegram response that is a JSON object with a truthy
`ok` entry makes the send call return normally. -/
theorem send_ok_of_truthy_flag (token chat_id text : String)
    (fields : List (String × JVal))
    (h : truthy ((fields.lookup "ok").getD JVal.null) = true) :
    send_telegram_message token chat_id text (Except.ok (JVal.obj fields)) = Except.ok () := by
  simp [send_telegram_message, h]

/-- A fully degraded world: today is 2024-01-05, every exchange request
fails, but the Telegram API accepts the message. -/
def degradedWorld : World :=
  { today := { year := 2024, month := 1, day := 5 }
    nse_warmup := Except.error "connection refused"
    nse_master := Except.error "connection refused"
    nse_deal_responses := [Except.error "x", Except.error "x",
      Except.error "x", Except.error "x"]
    bse_sym1 := Except.error "x"
    bse_sym2 := Except.error "x"
    bse_deal_responses := fun _ => (Except.error "x", Except.error "x")
    telegram_response := Except.ok (JVal.obj [("ok", JVal.bool true)]) }

/-- An environment with the bot token absent. -/
def envNoToken : Env :=
  { telegram_bot_token := none, telegram_chat_id := some "c",
    lookback_days := none, max_rows_per_section := none }

/-- An environment with both credentials present and no optional settings. -/
def envOk : Env :=
  { telegram_bot_token := some "t", telegram_chat_id := some "c",
    lookback_days := none, max_rows_per_section := none }

/-- An environment whose bot token is set but consists only of whitespace. -/
def envBlankToken : Env :=
  { telegram_bot_token := some "   ", telegram_chat_id := some "c",
    lookback_days := none, max_rows_per_section := none }

/-- C8: a missing (or blank) required credential makes `main` return exit
code 2 with a world-independent result, i.e. without any network
activity; with both credentials present, parseable numeric settings and a
successful delivery, `main` returns exit code 0 — for every world, in
particular when both exchange fetches degraded to empty results. -/
theorem exit_codes_correct (env : Env) (w w' : World) :
    ((pyStrip (env.telegram_bot_token.getD "") = ""
        ∨ pyStrip (env.telegram_chat_id.getD "") = "") →
      Script.main env w = Except.ok 2 ∧ Script.main env w = Script.main env w')
    ∧ (pyStrip (env.telegram_bot_token.getD "") ≠ "" →
       pyStrip (env.telegram_chat_id.getD "") ≠ "" →
       (∃ l, pyInt (env.lookback_days.getD "1") = Except.ok l) →
       (∃ m, pyInt (env.max_rows_per_section.getD "20") = Except.ok m) →
       (∃ fields, w.telegram_response = Except.ok (JVal.obj fields)
          ∧ truthy ((fields.lookup "ok").getD JVal.null) = true) →
       Script.main env w = Except.ok 0) := by
  constructor
  · exact main_blank_config env w w'
  · rintro htok hchat ⟨l, hl⟩ ⟨m, hm⟩ ⟨fields, hresp, hflag⟩
    have hcond : ¬ (pyStrip (env.telegram_bot_token.getD "") = ""
        ∨ pyStrip (env.telegram_chat_id.getD "") = "") := by
      tauto
    have hsend := send_ok_of_truthy_flag (pyStrip (env.telegram_bot_token.getD ""))
      (pyStrip (env.telegram_chat_id.getD "")) (buildMessage w
        (subDays ((max l 1).toNat - 1) w.today) w.today (max l 1).toNat m) fields hflag
    simp [Script.main, hcond, hl, hm, hresp, hsend]

/-- Witness for C8: with blank-token and valid-config environments over
the degraded world, `main` returns 2 and 0 respectively. -/
theorem exit_codes_correct_witness :
    Script.main envNoToken degradedWorld = Except.ok 2
    ∧ Script.main envOk degradedWorld = Except.ok 0 := by
  constructor
  · exact ((exit_codes_correct envNoToken degradedWorld degradedWorld).1
      (Or.inl (by decide))).1
  · exact (exit_codes_correct envOk degradedWorld degradedWorld).2
      (by decide) (by decide) ⟨1, rfl⟩ ⟨20, rfl⟩ ⟨[("ok", JVal.bool true)], rfl, rfl⟩

/-- C10: a credential that is set but consists only of whitespace is
stripped to the empty string before the presence check, so the process
returns exit code 2 with a world-independent result, exactly as if the
variable were missing. -/
theorem blank_credential_exits_2 (env : Env) (w w' : World) (s : String)
    (hws : pyStrip s = "")
    (h : env.telegram_bot_token = some s ∨ env.telegram_chat_id = some s) :
    Script.main env w = Except.ok 2 ∧ Script.main env w = Script.main env w' := by
  apply main_blank_config
  cases h with
  | inl h => left; rw [h]; exact hws
  | inr h => right; rw [h]; exact hws

/-- Witness for C10: a whitespace-only token with a valid chat id makes
`main` return 2 regardless of the world. -/
theorem blank_credential_exits_2_witness :
    Script.main envBlankToken degradedWorld = Except.ok 2 := by
  exact (blank_credential_exits_2 envBlankToken degradedWorld degradedWorld "   "
    (by decide) (Or.inl rfl)).1

/-! ## C2: degradation behaviour of the universe resolvers -/

/-- Counterexample to C2: the NSE universe resolver has no exception
handler, so an unreachable classification source makes it propagate the
error instead of returning an empty set. -/
theorem nse_resolver_raises_counterexample :
    fetch_nse_sme_symbols (Except.error "connection timed out")
      = Except.error "connection timed out" := rfl

/-- C2 as amended: only the BSE universe resolver swallows per-endpoint
failures (returning the empty set when both endpoints fail); the NSE
resolver propagates a fetch error, which `main` catches at the exchange
boundary, producing a warning line and an empty NSE section — so on a
universe-source outage the NSE deal set does not appear unfiltered, while
the BSE one does (an empty universe disables filtering with no warning
line). -/
theorem universe_resolver_degradation (e e1 e2 : String) (w : World)
    (hw : w.nse_warmup = Except.ok ()) (hm : w.nse_master = Except.error e) :
    fetch_nse_sme_symbols (Except.error e) = Except.error e
    ∧ fetch_bse_sme_symbols (Except.error e1) (Except.error e2) = Except.ok []
    ∧ (∀ rows, filter_sme rows [] = rows)
    ∧ nseBlock w = ([], ["NSE fetch warning: " ++ e]) := by
  refine ⟨rfl, rfl, fun rows => by simp [filter_sme], ?_⟩
  simp [nseBlock, nseTry, hw, hm, fetch_nse_sme_symbols]

/-- Witness for the amended C2 at a concrete world whose NSE master
download times out. -/
theorem universe_resolver_degradation_witness :
    nseBlock
      { today := { year := 2024, month := 1, day := 5 }
        nse_warmup := Except.ok ()
        nse_master := Except.error "timed out"
        nse_deal_responses := []
        bse_sym1 := Except.error "x"
        bse_sym2 := Except.error "x"
        bse_deal_responses := fun _ => (Except.error "x", Except.error "x")
        telegram_response := Except.ok JVal.null }
      = ([], ["NSE fetch warning: timed out"]) := by
  exact (universe_resolver_degradation "timed out" "a" "b"
    { today := { year := 2024, month := 1, day := 5 }
      nse_warmup := Except.ok ()
      nse_master := Except.error "timed out"
      nse_deal_responses := []
      bse_sym1 := Except.error "x"
      bse_sym2 := Except.error "x"
      bse_deal_responses := fun _ => (Except.error "x", Except.error "x")
      telegram_response := Except.ok JVal.null }
    rfl rfl).2.2.2

/-! ## C3: what can terminate the run abnormally -/

/-- An environment with valid credentials but a non-numeric
`LOOKBACK_DAYS`. -/
def envBadLookback : Env :=
  { telegram_bot_token := some "t", telegram_chat_id := some "c",
    lookback_days := some "x", max_rows_per_section := none }

/-- Counterexample to C3: with both required credentials present,
`int(os.getenv("LOOKBACK_DAYS", "1"))` runs outside every handler, so a
non-numeric value terminates the run abnormally even though the Telegram
delivery (whose response here would succeed) is never reached. -/
theorem config_parse_abort_counterexample :
    Script.main envBadLookback degradedWorld
      = Except.error "invalid literal for int() with base 10: 'x'"
    ∧ degradedWorld.telegram_response = Except.ok (JVal.obj [("ok", JVal.bool true)]) :=
  ⟨rfl, rfl⟩

/-- C3 as amended: with both required credentials present and the two
optional numeric settings parseable, every error arising inside the two
exchange fetch blocks is caught and converted to warning text, and the
run terminates abnormally exactly when the final Telegram send call
fails; only the unguarded `int()` parses of the optional settings
(counterexample above) can additionally abort the run. -/
theorem soft_fail_except_delivery (env : Env) (w : World) (l m : Int) (e : String)
    (htok : pyStrip (env.telegram_bot_token.getD "") ≠ "")
    (hchat : pyStrip (env.telegram_chat_id.getD "") ≠ "")
    (hl : pyInt (env.lookback_days.getD "1") = Except.ok l)
    (hm : pyInt (env.max_rows_per_section.getD "20") = Except.ok m) :
    Script.main env w = Except.error e ↔
      send_telegram_message (pyStrip (env.telegram_bot_token.getD ""))
        (pyStrip (env.telegram_chat_id.getD ""))
        (buildMessage w (subDays ((max l 1).toNat - 1) w.today) w.today
          ((max l 1).toNat) m)
        w.telegram_response = Except.error e := by
  have hcond : ¬ (pyStrip (env.telegram_bot_token.getD "") = ""
      ∨ pyStrip (env.telegram_chat_id.getD "") = "") := by
    tauto
  simp only [Script.main, hl, hm, if_neg hcond]
  cases hsend : send_telegram_message (pyStrip (env.telegram_bot_token.getD ""))
      (pyStrip (env.telegram_chat_id.getD ""))
      (buildMessage w (subDays ((max l 1).toNat - 1) w.today) w.today
        ((max l 1).toNat) m)
      w.telegram_response with
  | error e' => simp
  | ok u => simp

/-- Witness for the amended C3: over the fully degraded world with valid
configuration, both exchange blocks fail softly and the run ends
normally, so it did not produce the error outcome and neither did the
(successful) send call. -/
theorem soft_fail_except_delivery_witness :
    ¬ (Script.main envOk degradedWorld = Except.error "boom") := by
  have h := (soft_fail_except_delivery envOk degradedWorld 1 20 "boom"
    (by decide) (by decide) rfl rfl).mp
  intro hc
  exact absurd (h hc) (by intro hx; exact Except.noConfusion hx)

/-! ## C4: deduplication by the full field tuple -/

/-- Membership is preserved by the full-tuple deduplication. -/
theorem dedupFullTuple_mem (l : List DealRow) (a : DealRow) :
    a ∈ dedupFullTuple l ↔ a ∈ l := by
  induction l using dedupFullTuple.induct with
  | case1 => simp [dedupFullTuple]
  | case2 r rs ih =>
    by_cases ha : a = r
    · subst ha
      simp [dedupFullTuple]
    · simp [dedupFullTuple, ha, ih, List.mem_filter, bne_iff_ne]

/-- The full-tuple deduplication never keeps two identical records. -/
theorem dedupFullTuple_nodup (l : List DealRow) : (dedupFullTuple l).Nodup := by
  induction l using dedupFullTuple.induct with
  | case1 => simp [dedupFullTuple]
  | case2 r rs ih =>
    simp only [dedupFullTuple, List.nodup_cons]
    refine ⟨?_, ih⟩
    intro hmem
    rw [dedupFullTuple_mem, List.mem_filter] at hmem
    simp [bne_iff_ne] at hmem

/-- The full-tuple deduplication keeps records in first-seen order: its
output is a sublist of its input. -/
theorem dedupFullTuple_sublist (l : List DealRow) :
    (dedupFullTuple l).Sublist l := by
  induction l using dedupFullTuple.induct with
  | case1 => simp [dedupFullTuple]
  | case2 r rs ih =>
    rw [dedupFullTuple]
    exact List.Sublist.cons₂ r (ih.trans (List.filter_sublist rs))

/-- A BSE bulk payload whose `Table` carries the same disclosure twice. -/
def bseDupPayload : JVal :=
  JVal.obj [("Table", JVal.arr [
    JVal.obj [("Security", JVal.str "ABC"), ("Date", JVal.str "05/01/2024"),
              ("Qty", JVal.str "100"), ("Price", JVal.str "5"),
              ("BuyerName", JVal.str "X"), ("SellerName", JVal.str "Y")],
    JVal.obj [("Security", JVal.str "ABC"), ("Date", JVal.str "05/01/2024"),
              ("Qty", JVal.str "100"), ("Price", JVal.str "5"),
              ("BuyerName", JVal.str "X"), ("SellerName", JVal.str "Y")]])]

/-- The record both entries of `bseDupPayload` normalise to. -/
def bseDupRow : DealRow :=
  { exchange := "BSE", deal_type := "BULK", symbol := "ABC",
    date := "05/01/2024", quantity := "100", price := "5",
    buyer := "X", seller := "Y" }

/-- A world whose only successful request is the first BSE bulk deal
query, which returns the duplicated payload. -/
def bseDupWorld : World :=
  { today := { year := 2024, month := 1, day := 5 }
    nse_warmup := Except.error "down"
    nse_master := Except.error "down"
    nse_deal_responses := []
    bse_sym1 := Except.error "down"
    bse_sym2 := Except.error "down"
    bse_deal_responses := fun _ => (Except.ok bseDupPayload, Except.error "down")
    telegram_response := Except.ok JVal.null }

/-- Counterexample to C4: the pipeline's BSE record list is never
deduplicated — two records identical in all fields both survive to the
formatting stage (the BSE block of `main` yields them side by side),
whereas C4 claims every exchange's list is collapsed. -/
theorem bse_duplicates_survive_counterexample :
    bseBlock bseDupWorld { year := 2024, month := 1, day := 5 } 1
      = ([bseDupRow, bseDupRow], []) := rfl

/-- C4 as amended: only the NSE fetch deduplicates — `fetch_nse_deals` is
exactly the candidate-query loop followed by full-tuple deduplication,
which keeps one copy of each distinct record in first-seen order; BSE
records are passed through without any deduplication (counterexample
above). -/
theorem nse_dedup_full_tuple (responses : List (Except String JVal))
    (rows : List DealRow) (h : nseParsedRows responses = Except.ok rows) :
    fetch_nse_deals responses = Except.ok (dedupFullTuple rows)
    ∧ (dedupFullTuple rows).Nodup
    ∧ (∀ r, r ∈ dedupFullTuple rows ↔ r ∈ rows)
    ∧ (dedupFullTuple rows).Sublist rows := by
  refine ⟨?_, dedupFullTuple_nodup rows, fun r => dedupFullTuple_mem rows r,
    dedupFullTuple_sublist rows⟩
  simp [fetch_nse_deals, h]

/-- An NSE bulk payload carrying the same disclosure twice. -/
def nseDupPayload : JVal :=
  JVal.obj [("data", JVal.arr [
    JVal.obj [("symbol", JVal.str "abc"), ("date", JVal.str "01-01-2024"),
              ("quantityTraded", JVal.str "500"), ("pricePerShare", JVal.str "10"),
              ("clientName", JVal.str "B"), ("sellerName", JVal.str "S")],
    JVal.obj [("symbol", JVal.str "abc"), ("date", JVal.str "01-01-2024"),
              ("quantityTraded", JVal.str "500"), ("pricePerShare", JVal.str "10"),
              ("clientName", JVal.str "B"), ("sellerName", JVal.str "S")]])]

/-- Witness for the amended C4: an NSE fetch whose first candidate
returns a duplicated payload yields the single collapsed record. -/
theorem nse_dedup_full_tuple_witness :
    fetch_nse_deals [Except.ok nseDupPayload, Except.error "x",
        Except.error "x", Except.error "x"]
      = Except.ok (dedupFullTuple [rowAbc, rowAbc]) := by
  exact (nse_dedup_full_tuple [Except.ok nseDupPayload, Except.error "x",
    Except.error "x", Except.error "x"] [rowAbc, rowAbc] rfl).1

/-! ## C5: symbol case in normalised records -/

/-- The record produced by the NSE normaliser for a payload entry whose
only field is the lowercase symbol `abc`. -/
def rowLowerAbc : DealRow := ⟨"NSE", "BULK", "abc", "", "500", "", "", ""⟩

/-- Counterexample to C5: the normaliser strips but never uppercases the
symbol, so a source record with lowercase symbol `abc` matching universe
entry `ABC` is kept by the filter yet appears with symbol `abc`, not
`ABC`. -/
theorem symbol_not_uppercased_counterexample :
    parse_json_rows [("data", JVal.arr [JVal.obj [("symbol", JVal.str "abc"),
        ("quantityTraded", JVal.str "500")]])] "NSE" "BULK" = [rowLowerAbc]
    ∧ filter_sme [rowLowerAbc] ["ABC"] = [rowLowerAbc]
    ∧ rowLowerAbc.symbol ≠ pyUpper rowLowerAbc.symbol := by
  refine ⟨rfl, by decide, by decide⟩

/-- Stripping the empty string yields the empty string. -/
theorem pyStrip_empty : pyStrip "" = "" := rfl

/-- C5 as amended: the normalisers strip whitespace but preserve the
source case of the symbol; uppercasing is applied only inside the filter
predicate (and when building the universes), so a record whose stripped
symbol uppercases into a non-empty universe is included in the output
carrying its original case. -/
theorem symbol_case_preserved (s exch dt : String) (syms : List String) :
    parse_json_rows [("data", JVal.arr [JVal.obj [("symbol", JVal.str s)]])] exch dt
      = [⟨exch, dt, pyStrip s, "", "", "", "", ""⟩]
    ∧ (syms ≠ [] →
        filter_sme [⟨exch, dt, pyStrip s, "", "", "", "", ""⟩] syms
          = (if syms.contains (pyUpper (pyStrip s)) then
              [(⟨exch, dt, pyStrip s, "", "", "", "", ""⟩ : DealRow)]
            else [])) := by
  constructor
  · by_cases hs : s = ""
    · subst hs
      rfl
    · have ht : truthy (JVal.str s) = true := by
        simp [truthy, hs]
      simp [parse_json_rows, getOr, getOrD, ht, pyStr, List.lookup, pyStrip_empty]
  · intro hne
    have hempty : syms.isEmpty = false := by
      cases syms with
      | nil => exact absurd rfl hne
      | cons a l => rfl
    by_cases hc : syms.contains (pyUpper (pyStrip s)) = true
    · have hmem : pyUpper (pyStrip s) ∈ syms := List.elem_iff.mp hc
      simp [filter_sme, hempty, hmem]
    · have hmem : pyUpper (pyStrip s) ∉ syms := fun hm => hc (List.elem_iff.mpr hm)
      simp [filter_sme, hempty, hmem]

/-- Witness for the amended C5: the lowercase symbol ` abc ` is stripped
to `abc`, matches universe entry `ABC`, and is kept with its original
case. -/
theorem symbol_case_preserved_witness :
    filter_sme [⟨"NSE", "BULK", pyStrip " abc ", "", "", "", "", ""⟩] ["ABC"]
      = [⟨"NSE", "BULK", pyStrip " abc ", "", "", "", "", ""⟩] := by
  have h := ((symbol_case_preserved " abc " "NSE" "BULK" ["ABC"]).2 (by decide))
  rw [h]
  decide

/-! ## C6: defaults for payload entries lacking a field's candidate keys -/

/-- A `get(k1) or ... or default` chain over keys that are all absent from
the payload falls through to the default. -/
theorem getOrD_lookup_none (item : List (String × JVal)) (keys : List String)
    (dflt : JVal) (h : ∀ k ∈ keys, item.lookup k = none) :
    getOrD item keys dflt = dflt := by
  induction keys with
  | nil => rfl
  | cons k ks ih =>
    have hk : item.lookup k = none := h k (by simp)
    have hks : ∀ k' ∈ ks, item.lookup k' = none := fun k' hk' => h k' (by simp [hk'])
    simp [getOrD, hk, ih hks]

/-- Counterexample to C6: a BSE payload entry lacking every candidate key
yields a record whose `date` field is the as-on date's ISO form — a
non-empty string — because that field's fallback is `as_on.isoformat()`
rather than the empty string. -/
theorem bse_date_default_counterexample :
    fetch_bse_deals { year := 2024, month := 1, day := 5 }
        (Except.ok (JVal.obj [("Table", JVal.arr [JVal.obj []])]))
        (Except.error "down")
      = Except.ok [⟨"BSE", "BULK", "", "2024-01-05", "", "", "", ""⟩]
    ∧ "2024-01-05" ≠ "" := ⟨rfl, by decide⟩

/-- C6 as amended, per field: every dict payload entry normalises to
exactly one record, and each field whose own candidate keys are all
absent from the entry defaults to the empty string — except the BSE
`date` field, whose fallback is the (stripped) ISO form of the queried
day (counterexample above).  The per-field hypotheses are independent: a
payload may carry some fields and lack others. -/
theorem missing_keys_default_empty (exch dt : String) (item : List (String × JVal))
    (d : PyDate) :
    (∃ r : DealRow,
      parse_json_rows [("data", JVal.arr [JVal.obj item])] exch dt = [r]
      ∧ r.exchange = exch
      ∧ r.deal_type = dt
      ∧ ((∀ k ∈ (["symbol", "scripName", "Security"] : List String),
            item.lookup k = none) → r.symbol = "")
      ∧ ((∀ k ∈ (["date", "dt", "DealDate"] : List String),
            item.lookup k = none) → r.date = "")
      ∧ ((∀ k ∈ (["quantityTraded", "qty", "Quantity"] : List String),
            item.lookup k = none) → r.quantity = "")
      ∧ ((∀ k ∈ (["pricePerShare", "price", "Price"] : List String),
            item.lookup k = none) → r.price = "")
      ∧ ((∀ k ∈ (["clientName", "buyerName", "Buyer"] : List String),
            item.lookup k = none) → r.buyer = "")
      ∧ ((∀ k ∈ (["sellerName", "Seller"] : List String),
            item.lookup k = none) → r.seller = ""))
    ∧ (∃ rb : DealRow,
      fetch_bse_deals d (Except.ok (JVal.obj [("Table", JVal.arr [JVal.obj item])]))
          (Except.error "down")
        = Except.ok [rb]
      ∧ rb.exchange = "BSE"
      ∧ rb.deal_type = "BULK"
      ∧ ((∀ k ∈ (["Security", "scripname", "ScripName"] : List String),
            item.lookup k = none) → rb.symbol = "")
      ∧ ((∀ k ∈ (["Date", "DealDate"] : List String),
            item.lookup k = none) → rb.date = pyStrip (isoformat d))
      ∧ ((∀ k ∈ (["Qty", "Quantity"] : List String),
            item.lookup k = none) → rb.quantity = "")
      ∧ ((∀ k ∈ (["Price", "DealPrice"] : List String),
            item.lookup k = none) → rb.price = "")
      ∧ ((∀ k ∈ (["BuyerName", "ClientName"] : List String),
            item.lookup k = none) → rb.buyer = "")
      ∧ ((∀ k ∈ (["SellerName"] : List String),
            item.lookup k = none) → rb.seller = "")) := by
  constructor
  · refine ⟨⟨exch, dt,
      pyStrip (pyStr (getOr item ["symbol", "scripName", "Security"])),
      pyStrip (pyStr (getOr item ["date", "dt", "DealDate"])),
      pyStrip (pyStr (getOr item ["quantityTraded", "qty", "Quantity"])),
      pyStrip (pyStr (getOr item ["pricePerShare", "price", "Price"])),
      pyStrip (pyStr (getOr item ["clientName", "buyerName", "Buyer"])),
      pyStrip (pyStr (getOr item ["sellerName", "Seller"]))⟩,
      rfl, rfl, rfl, ?_, ?_, ?_, ?_, ?_, ?_⟩
    · intro h
      rw [show getOr item ["symbol", "scripName", "Security"] = JVal.str ""
        from getOrD_lookup_none item _ _ h]
      rfl
    · intro h
      rw [show getOr item ["date", "dt", "DealDate"] = JVal.str ""
        from getOrD_lookup_none item _ _ h]
      rfl
    · intro h
      rw [show getOr item ["quantityTraded", "qty", "Quantity"] = JVal.str ""
        from getOrD_lookup_none item _ _ h]
      rfl
    · intro h
      rw [show getOr item ["pricePerShare", "price", "Price"] = JVal.str ""
        from getOrD_lookup_none item _ _ h]
      rfl
    · intro h
      rw [show getOr item ["clientName", "buyerName", "Buyer"] = JVal.str ""
        from getOrD_lookup_none item _ _ h]
      rfl
    · intro h
      rw [show getOr item ["sellerName", "Seller"] = JVal.str ""
        from getOrD_lookup_none item _ _ h]
      rfl
  · refine ⟨⟨"BSE", pyUpper "bulk",
      pyStrip (pyStr (getOr item ["Security", "scripname", "ScripName"])),
      pyStrip (pyStr (getOrD item ["Date", "DealDate"] (JVal.str (isoformat d)))),
      pyStrip (pyStr (getOr item ["Qty", "Quantity"])),
      pyStrip (pyStr (getOr item ["Price", "DealPrice"])),
      pyStrip (pyStr (getOr item ["BuyerName", "ClientName"])),
      pyStrip (pyStr (getOr item ["SellerName"]))⟩,
      rfl, rfl, rfl, ?_, ?_, ?_, ?_, ?_, ?_⟩
    · intro h
      rw [show getOr item ["Security", "scripname", "ScripName"] = JVal.str ""
        from getOrD_lookup_none item _ _ h]
      rfl
    · intro h
      rw [show getOrD item ["Date", "DealDate"] (JVal.str (isoformat d))
          = JVal.str (isoformat d)
        from getOrD_lookup_none item _ _ h]
      rfl
    · intro h
      rw [show getOr item ["Qty", "Quantity"] = JVal.str ""
        from getOrD_lookup_none item _ _ h]
      rfl
    · intro h
      rw [show getOr item ["Price", "DealPrice"] = JVal.str ""
        from getOrD_lookup_none item _ _ h]
      rfl
    · intro h
      rw [show getOr item ["BuyerName", "ClientName"] = JVal.str ""
        from getOrD_lookup_none item _ _ h]
      rfl
    · intro h
      rw [show getOr item ["SellerName"] = JVal.str ""
        from getOrD_lookup_none item _ _ h]
      rfl

/-- Witness for the amended C6: an entry that carries a `symbol` but none
of the date/quantity/price/buyer/seller keys keeps its symbol and gets
the empty string for those fields on NSE, and the ISO-dated record on
BSE — exercising the per-field hypotheses independently. -/
theorem missing_keys_default_empty_witness :
    parse_json_rows [("data", JVal.arr [JVal.obj [("symbol", JVal.str "abc")]])]
        "NSE" "BULK" = [⟨"NSE", "BULK", "abc", "", "", "", "", ""⟩]
    ∧ fetch_bse_deals { year := 2024, month := 1, day := 5 }
        (Except.ok (JVal.obj [("Table",
          JVal.arr [JVal.obj [("symbol", JVal.str "abc")]])]))
        (Except.error "down")
      = Except.ok [⟨"BSE", "BULK", "", "2024-01-05", "", "", "", ""⟩] := by
  obtain ⟨⟨r, hr, hex, hdt, h1, h2, h3, h4, h5, h6⟩,
      rb, hrb, gex, gdt, g1, g2, g3, g4, g5, g6⟩ :=
    missing_keys_default_empty "NSE" "BULK" [("symbol", JVal.str "abc")]
      { year := 2024, month := 1, day := 5 }
  constructor
  · have h0 : parse_json_rows [("data", JVal.arr [JVal.obj [("symbol", JVal.str "abc")]])]
        "NSE" "BULK" = [(⟨"NSE", "BULK", "abc",
          pyStrip (pyStr (getOr [("symbol", JVal.str "abc")] ["date", "dt", "DealDate"])),
          pyStrip (pyStr (getOr [("symbol", JVal.str "abc")] ["quantityTraded", "qty", "Quantity"])),
          pyStrip (pyStr (getOr [("symbol", JVal.str "abc")] ["pricePerShare", "price", "Price"])),
          pyStrip (pyStr (getOr [("symbol", JVal.str "abc")] ["clientName", "buyerName", "Buyer"])),
          pyStrip (pyStr (getOr [("symbol", JVal.str "abc")] ["sellerName", "Seller"]))⟩ : DealRow)] := rfl
    have h10 := h0.symm.trans hr
    injection h10
  · rw [hrb]
    have hrbe : rb = ⟨"BSE", "BULK", "", "2024-01-05", "", "", "", ""⟩ := by
      cases rb
      simp only [DealRow.mk.injEq]
      refine ⟨gex, gdt, g1 (by intro k hk; fin_cases hk <;> rfl), ?_,
        g3 (by intro k hk; fin_cases hk <;> rfl),
        g4 (by intro k hk; fin_cases hk <;> rfl),
        g5 (by intro k hk; fin_cases hk <;> rfl),
        g6 (by intro k hk; fin_cases hk <;> rfl)⟩
      exact g2 (by intro k hk; fin_cases hk <;> rfl)
    rw [hrbe]

/-! ## C9: when the notifier raises -/

/-- Counterexample to C9: a completed HTTP call whose response body is the
valid JSON object with no `ok` entry at all (the flag is neither true nor
false) still makes the notifier raise, so "raises iff the flag is false
or the call cannot be completed" does not hold as stated. -/
theorem notifier_raises_without_flag_counterexample :
    send_telegram_message "t" "c" "hello" (Except.ok (JVal.obj []))
      = Except.error "Telegram API error: \x7b\x7d"
    ∧ List.lookup "ok" ([] : List (String × JVal)) = none := ⟨rfl, rfl⟩

/-- C9 as amended: the notifier returns normally exactly when the call
completes with a JSON-object response whose `ok` entry is present and
truthy; it propagates the transport error when the call cannot be
completed, and raises on any completed response without a truthy `ok`
flag (false, absent or otherwise falsy flag, or a non-object body). -/
theorem notifier_error_iff (tok chat txt : String) (resp : Except String JVal) :
    (send_telegram_message tok chat txt resp = Except.ok () ↔
      ∃ fields, resp = Except.ok (JVal.obj fields)
        ∧ truthy ((fields.lookup "ok").getD JVal.null) = true)
    ∧ (∀ e, resp = Except.error e →
        send_telegram_message tok chat txt resp = Except.error e) := by
  constructor
  · constructor
    · intro hok
      cases resp with
      | error e => simp [send_telegram_message] at hok
      | ok payload =>
        cases payload with
        | obj fields =>
          by_cases hf : truthy ((fields.lookup "ok").getD JVal.null) = true
          · exact ⟨fields, rfl, hf⟩
          · simp [send_telegram_message, hf] at hok
        | null => simp [send_telegram_message] at hok
        | bool b => simp [send_telegram_message] at hok
        | num n => simp [send_telegram_message] at hok
        | str s => simp [send_telegram_message] at hok
        | arr xs => simp [send_telegram_message] at hok
    · rintro ⟨fields, hresp, hflag⟩
      subst hresp
      simp [send_telegram_message, hflag]
  · intro e he
    subst he
    rfl

/-- Witness for the amended C9: a truthy `ok` flag means a normal return,
and a transport failure propagates as-is. -/
theorem notifier_error_iff_witness :
    send_telegram_message "t" "c" "hello"
      (Except.ok (JVal.obj [("ok", JVal.bool true)])) = Except.ok ()
    ∧ send_telegram_message "t" "c" "hello" (Except.error "unreachable")
      = Except.error "unreachable" := by
  constructor
  · exact (notifier_error_iff "t" "c" "hello"
      (Except.ok (JVal.obj [("ok", JVal.bool true)]))).1.mpr
      ⟨[("ok", JVal.bool true)], rfl, rfl⟩
  · exact (notifier_error_iff "t" "c" "hello" (Except.error "unreachable")).2
      "unreachable" rfl
